import Mathlib

/-!
Verification of the generative poster renderer (`app2.py`).

The renderer is embedded shallowly over `ℚ`:

* Every call to the (globally seeded) Python `random` module and to
  `numpy.random` is modelled by reading from an abstract stream
  `u : ℕ → ℚ` of unit-interval draws at an explicit cursor position;
  `UnitDraws u` states that every draw lies in `[0,1)`.
* Floating-point trigonometry is modelled by an abstract `Trig` record of
  rational-valued functions: `cost`/`sint` stand for `cos`/`sin` of a full
  turn fraction (the code's `linspace(0, 2*pi, _)` angles are recorded as
  fractions of `2*pi`, which are exact rationals), `cosr`/`sinr` for
  `cos`/`sin` of a rational radian value (the rotation angles drawn from
  `uniform(-rotation_range, rotation_range)`), and `cosd`/`sind` for
  `cos`/`sin` of a rational degree value (the code's
  `math.cos(math.radians(light_angle))`).  All theorems either hold for
  every such record or instantiate it at points where the exact values of
  `cos`/`sin` are themselves rational (0, 90 and 360 degrees).
* The raster output is represented by the `Poster` value describing the
  exact sequence of draw commands handed to the plotting backend: the
  palette, every layer's two outlines, fill colour and alpha, and the
  final title colour.
-/

abbrev Point := ℚ × ℚ

abbrev Color := ℚ × ℚ × ℚ

/-- An abstract stream of pseudo-random unit draws; `u n` is the value of
the `n`-th `random()` (or `numpy.random.rand`) call since seeding. -/
def UnitDraws (u : ℕ → ℚ) : Prop := ∀ n, 0 ≤ u n ∧ u n < 1

/-- Abstract rational stand-ins for the floating-point trigonometric
functions, split by the unit in which the embedded code measures angles. -/
structure Trig where
  cost : ℚ → ℚ
  sint : ℚ → ℚ
  cosr : ℚ → ℚ
  sinr : ℚ → ℚ
  cosd : ℚ → ℚ
  sind : ℚ → ℚ

/-- `random.uniform(a, b)`: `a + (b-a)*random()` (CPython's definition,
which also accepts `a > b`). -/
def pyUniform (u : ℕ → ℚ) (i : ℕ) (a b : ℚ) : ℚ := a + (b - a) * u i

/-- `random.randint(a, b)` (both ends inclusive), modelled as
`a + floor(u * (b - a + 1))`. -/
def pyRandint (u : ℕ → ℚ) (i : ℕ) (a b : ℤ) : ℤ :=
  a + ⌊u i * ((b : ℚ) - (a : ℚ) + 1)⌋

/-- `random.choice(l)`, modelled as indexing by `floor(u * len(l))`. -/
def pyChoice (l : List Color) (u : ℕ → ℚ) (i : ℕ) : Color :=
  l.getD (⌊u i * (l.length : ℚ)⌋).toNat (0, 0, 0)

/-- `numpy.clip(x, 0, 1)` on one channel. -/
def clip01 (x : ℚ) : ℚ := min (max x 0) 1

/-- Channel-wise scaling of a colour (`base_color * brightness_factor`). -/
def smulColor (f : ℚ) (c : Color) : Color := (f * c.1, f * c.2.1, f * c.2.2)

/-- Channel-wise `numpy.clip(c, 0, 1)`. -/
def clipColor (c : Color) : Color := (clip01 c.1, clip01 c.2.1, clip01 c.2.2)

/-- Holds when all three channels of a colour lie in `[0, 1]`. -/
def ChanIn01 (c : Color) : Prop :=
  0 ≤ c.1 ∧ c.1 ≤ 1 ∧ 0 ≤ c.2.1 ∧ c.2.1 ≤ 1 ∧ 0 ≤ c.2.2 ∧ c.2.2 ≤ 1

instance (c : Color) : Decidable (ChanIn01 c) := by
  unfold ChanIn01; infer_instance

/-- `luminance(rgb)` from `app2.py`: `0.299*r + 0.587*g + 0.114*b`. -/
def luminance (c : Color) : ℚ := 0.299 * c.1 + 0.587 * c.2.1 + 0.114 * c.2.2

-- ## Palette generator (`random_palette` in `app2.py`)

/-- Builds the list `[f(i), f(i+step), f(i+2*step), ...]` of length `k`:
the shape shared by all of `random_palette`'s list comprehensions, where
`f` gives one colour from the draws starting at cursor `i` and `step` is
the number of draws one colour consumes. -/
def buildColors (f : ℕ → Color) (step : ℕ) : ℕ → ℕ → List Color
  | 0, _ => []
  | k + 1, i => f i :: buildColors f step k (i + step)

/-- One pastel colour: `(0.6+0.4*random(), 0.6+0.4*random(), 0.6+0.4*random())`. -/
def pastelColor (u : ℕ → ℚ) (i : ℕ) : Color :=
  (0.6 + 0.4 * u i, 0.6 + 0.4 * u (i + 1), 0.6 + 0.4 * u (i + 2))

/-- One neon colour: `(uniform(0.5,1), uniform(0,1), uniform(0.5,1))`. -/
def neonColor (u : ℕ → ℚ) (i : ℕ) : Color :=
  (pyUniform u i 0.5 1, pyUniform u (i + 1) 0 1, pyUniform u (i + 2) 0.5 1)

/-- One monochrome colour: `(base+0.1*random(),)*3` — a single draw
replicated across the three channels, with no clamping. -/
def monoColor (u : ℕ → ℚ) (base : ℚ) (i : ℕ) : Color :=
  (base + 0.1 * u i, base + 0.1 * u i, base + 0.1 * u i)

/-- One fully random colour: `(random(), random(), random())` — the
fallback branch of `random_palette`. -/
def randColor (u : ℕ → ℚ) (i : ℕ) : Color := (u i, u (i + 1), u (i + 2))

def earth_tones : List Color :=
  [(0.42, 0.26, 0.15), (0.55, 0.47, 0.37), (0.62, 0.74, 0.55),
   (0.84, 0.78, 0.58), (0.40, 0.55, 0.30)]

def ocean_tones : List Color :=
  [(0.0, 0.3, 0.5), (0.1, 0.6, 0.8), (0.2, 0.8, 0.9),
   (0.0, 0.5, 0.4), (0.4, 0.9, 1.0)]

def sunset_tones : List Color :=
  [(1.0, 0.5, 0.0), (1.0, 0.2, 0.3), (0.8, 0.3, 0.6),
   (0.6, 0.2, 0.8), (0.9, 0.7, 0.3)]

def cyber_colors : List Color :=
  [(1.0, 0.0, 0.8), (0.0, 1.0, 1.0), (0.2, 0.2, 1.0),
   (1.0, 0.8, 0.1), (0.1, 0.0, 0.1)]

/-- `random_palette(style, k)` from `app2.py`.  Returns the colour list
together with the draw cursor after the call (each comprehension consumes
a fixed number of draws per colour, and monochrome consumes one extra
draw for the shared base gray). -/
def random_palette (u : ℕ → ℚ) (style : String) (k : ℕ) (i : ℕ) :
    List Color × ℕ :=
  if style = "pastel" then (buildColors (pastelColor u) 3 k i, i + 3 * k)
  else if style = "neon" then (buildColors (neonColor u) 3 k i, i + 3 * k)
  else if style = "monochrome" then
    (buildColors (monoColor u (u i)) 1 k (i + 1), i + 1 + k)
  else if style = "earth" then
    (buildColors (fun j => pyChoice earth_tones u j) 1 k i, i + k)
  else if style = "ocean" then
    (buildColors (fun j => pyChoice ocean_tones u j) 1 k i, i + k)
  else if style = "sunset" then
    (buildColors (fun j => pyChoice sunset_tones u j) 1 k i, i + k)
  else if style = "cyberpunk" then
    (buildColors (fun j => pyChoice cyber_colors u j) 1 k i, i + k)
  else (buildColors (randColor u) 3 k i, i + 3 * k)

-- ## Shape generators

/-- The turn fractions of `numpy.linspace(0, 2*pi, points)` (endpoint
included): the `k`-th angle is `2*pi * k/(points-1)`, recorded as the
fraction `k/(points-1)`. -/
def linspaceFrac (points : ℕ) : List ℚ :=
  (List.range points).map fun k : ℕ => (k : ℚ) / ((points : ℚ) - 1)

/-- The `k`-th blob radius: `r * (1 + wobble*(rand() - 0.5))`, reading the
`numpy` draw at cursor `i0 + k`. -/
def blobRadius (nq : ℕ → ℚ) (i0 : ℕ) (r w : ℚ) (k : ℕ) : ℚ :=
  r * (1 + w * (nq (i0 + k) - 0.5))

/-- The radii array `r*(1+wobble*(np.random.rand(points)-0.5))` of `blob`. -/
def blobRadii (nq : ℕ → ℚ) (i0 : ℕ) (r w : ℚ) (points : ℕ) : List ℚ :=
  (List.range points).map (blobRadius nq i0 r w)

/-- `blob(center, r, points, wobble)` from `app2.py`: pairs each linspace
angle with its perturbed radius; the outline is not explicitly closed. -/
def blob (t : Trig) (nq : ℕ → ℚ) (i0 : ℕ) (c : Point) (r : ℚ)
    (points : ℕ) (w : ℚ) : List Point :=
  ((linspaceFrac points).zip (blobRadii nq i0 r w points)).map fun ar =>
    (c.1 + ar.2 * t.cost ar.1, c.2 + ar.2 * t.sint ar.1)

/-- The `"circle"` branch of `shape`: linspace angles at the exact radius. -/
def circlePts (t : Trig) (c : Point) (r : ℚ) (points : ℕ) : List Point :=
  (linspaceFrac points).map fun a => (c.1 + r * t.cost a, c.2 + r * t.sint a)

/-- The `"polygon"` branch of `shape`: `n_sides = randint(3, 8)` vertices at
turn fractions `k/n_sides` (`endpoint=False`), closed by repeating the
first vertex (`np.append(x, x[0])`). -/
def polygonOutline (t : Trig) (u : ℕ → ℚ) (i : ℕ) (c : Point) (r : ℚ) :
    List Point :=
  let n := (pyRandint u i 3 8).toNat
  let pts := (List.range n).map fun k : ℕ =>
    (c.1 + r * t.cost ((k : ℚ) / (n : ℚ)), c.2 + r * t.sint ((k : ℚ) / (n : ℚ)))
  pts ++ pts.take 1

/-- `shape(center, r, points, wobble, shape_type)` from `app2.py`.  Returns
the outline together with the Python-side and numpy-side draw cursors after
the call (a polygon consumes one Python draw for `randint`; a blob consumes
`points` numpy draws; a circle consumes none). -/
def shape (t : Trig) (u nq : ℕ → ℚ) (pidx nidx : ℕ) (c : Point) (r : ℚ)
    (points : ℕ) (w : ℚ) (st : String) : List Point × ℕ × ℕ :=
  if st = "circle" then (circlePts t c r points, pidx, nidx)
  else if st = "polygon" then (polygonOutline t u pidx c r, pidx + 1, nidx)
  else (blob t nq nidx c r points w, pidx, nidx + points)

/-- `rotate_coords(x, y, cx, cy, angle)` from `app2.py`, per point. -/
def rotate_coords (t : Trig) (p : Point) (c : Point) (angle : ℚ) : Point :=
  ((p.1 - c.1) * t.cosr angle - (p.2 - c.2) * t.sinr angle + c.1,
   (p.1 - c.1) * t.sinr angle + (p.2 - c.2) * t.cosr angle + c.2)

-- ## Poster renderer (`render_poster` in `app2.py`)

/-- The keyword parameters of `render_poster`.  `background` and
`title_color` are the parsed hex bytes: the code parses `background`
unconditionally at the end of the render, while `title_color` is parsed
inside a `try`/`except` whose fallback is black, modelled by `none`. -/
structure Params where
  style : String
  shape_type : String
  n_layers : ℕ
  wobble : ℚ
  background : ℕ × ℕ × ℕ
  title_color : Option (ℕ × ℕ × ℕ)
  shadow_offset : ℚ
  brightness_strength : ℚ
  alpha_min : ℚ
  alpha_max : ℚ
  light_angle : ℚ
  rotation_range : ℚ
  width : ℕ
  height : ℕ

/-- One drawn layer: the data of one iteration of `render_poster`'s loop,
in the order the backend receives it (shadow fill first, lit fill second). -/
structure Layer where
  rank : ℕ
  litCenter : Point
  shadowCenter : Point
  radius : ℚ
  angle : ℚ
  shadowOutline : List Point
  litOutline : List Point
  base : Color
  fill : Color
  alpha : ℚ

deriving instance DecidableEq for Layer

/-- `0.75 + brightness_strength*(i / max(1, n_layers))` from the render
loop (the divisor is `n_layers` itself). -/
def brightness_factor (strength : ℚ) (i n : ℕ) : ℚ :=
  0.75 + strength * ((i : ℚ) / ((max 1 n : ℕ) : ℚ))

/-- The brightness factor as the specification words it:
`0.75 + strength*(i / max(1, n-1))`.  Kept only to compare against
`brightness_factor`, which is what the code computes. -/
def spec_brightness_factor (strength : ℚ) (i n : ℕ) : ℚ :=
  0.75 + strength * ((i : ℚ) / ((max 1 (n - 1) : ℕ) : ℚ))

/-- The layer loop of `render_poster`: draws `count` layers starting at
loop index `i` with the Python-side draw cursor at `pidx` and the
numpy-side cursor at `nidx`.  Each iteration draws, in source order:
`cx`, `cy`, `rr`, `angle` (four `uniform` calls), the shadow shape, the
lit shape, the base colour (`random.choice(palette)`) and the alpha
(`uniform(alpha_min, alpha_max)`). -/
def renderLayers (t : Trig) (u nq : ℕ → ℚ) (p : Params)
    (palette : List Color) (dx dy : ℚ) (nL : ℕ) :
    ℕ → ℕ → ℕ → ℕ → List Layer
  | 0, _, _, _ => []
  | count + 1, i, pidx, nidx =>
    let cx := pyUniform u pidx 0.05 0.95
    let cy := pyUniform u (pidx + 1) 0.05 0.95
    let rr := pyUniform u (pidx + 2) 0.02 0.22
    let angle := pyUniform u (pidx + 3) (-p.rotation_range) p.rotation_range
    let s1 := shape t u nq (pidx + 4) nidx (cx + dx, cy + dy) rr 1000
      p.wobble p.shape_type
    let shadowO := s1.1.map fun q => rotate_coords t q (cx + dx, cy + dy) angle
    let s2 := shape t u nq s1.2.1 s1.2.2 (cx, cy) rr 1000
      p.wobble p.shape_type
    let litO := s2.1.map fun q => rotate_coords t q (cx, cy) angle
    let base := pyChoice palette u s2.2.1
    let fill := clipColor (smulColor (brightness_factor p.brightness_strength i nL) base)
    let alpha := pyUniform u (s2.2.1 + 1) p.alpha_min p.alpha_max
    { rank := i, litCenter := (cx, cy), shadowCenter := (cx + dx, cy + dy),
      radius := rr, angle := angle, shadowOutline := shadowO,
      litOutline := litO, base := base, fill := fill, alpha := alpha } ::
      renderLayers t u nq p palette dx dy nL count (i + 1) (s2.2.1 + 2) s2.2.2

/-- Hex-byte triple to unit-interval rgb: `int(s[i:i+2], 16)/255`. -/
def hexToRGB (b : ℕ × ℕ × ℕ) : Color :=
  ((b.1 : ℚ) / 255, (b.2.1 : ℚ) / 255, (b.2.2 : ℚ) / 255)

/-- The requested title colour after the `try`/`except` parse: the parsed
bytes when the hex string is valid, else black. -/
def requestedTitleRGB (p : Params) : Color :=
  match p.title_color with
  | some b => hexToRGB b
  | none => (0, 0, 0)

/-- The text-contrast fix of `render_poster`: if the luminances of
background and requested text colour differ by less than `0.5`, replace
the text colour by white when the background is dark (luminance `< 0.5`)
and by black otherwise. -/
def fixTitleColor (bg txt : Color) : Color :=
  if |luminance bg - luminance txt| < 0.5 then
    (if luminance bg < 0.5 then (1, 1, 1) else (0, 0, 0))
  else txt

/-- The value drawn by one call of `render_poster`.  `palette` is the
40-colour palette, `layers` the drawn layers in back-to-front order,
`bgRGB` the parsed background and `titleRGB` the title colour actually
used for the three text overlays. -/
structure Poster where
  palette : List Color
  layers : List Layer
  bgRGB : Color
  titleRGB : Color

/-- `render_poster` from `app2.py`.  `sp`/`sn` map a seed value to the
draw stream that `random.seed(seed)` / `np.random.seed(seed)` produce;
`gp`/`gn` are the (unknown, entropy-derived) streams used when
`seed is None`.  The function reseeds both generators on entry, derives
the palette, computes the shadow offset direction
`(shadow_offset*cos(radians(light_angle)), -shadow_offset*sin(radians(light_angle)))`,
runs the layer loop and applies the text-contrast fix. -/
def render_poster (t : Trig) (sp sn : ℕ → ℕ → ℚ) (gp gn : ℕ → ℚ)
    (seed : Option ℕ) (p : Params) : Poster :=
  let u := match seed with | some s => sp s | none => gp
  let nq := match seed with | some s => sn s | none => gn
  let pal := random_palette u p.style 40 0
  let dx := p.shadow_offset * t.cosd p.light_angle
  let dy := -(p.shadow_offset * t.sind p.light_angle)
  let layers := renderLayers t u nq p pal.1 dx dy p.n_layers
    p.n_layers 0 pal.2 0
  let bg := hexToRGB p.background
  { palette := pal.1, layers := layers, bgRGB := bg,
    titleRGB := fixTitleColor bg (requestedTitleRGB p) }

-- ## Concrete instantiation data

/-- A concrete trig record used for closed evaluations.  Its `cosd`/`sind`
agree with the true cosine/sine at 90 degrees (`cos 90 = 0`, `sin 90 = 1`)
and its `cost`/`sint` agree with them at the turn fractions 0 and 1
(`cos 0 = cos (2*pi) = 1`, `sin 0 = sin (2*pi) = 0`), the only angles whose
trigonometric values the closed theorems below inspect. -/
def t0 : Trig :=
  { cost := fun _ => 1, sint := fun _ => 0, cosr := fun _ => 1,
    sinr := fun _ => 0, cosd := fun _ => 0, sind := fun _ => 1 }

/-- The all-zeroes draw stream. -/
def zeroStream : ℕ → ℚ := fun _ => 0

/-- The constant one-half draw stream. -/
def uHalf : ℕ → ℚ := fun _ => 1/2

/-- The constant `0.95` draw stream. -/
def u95 : ℕ → ℚ := fun _ => 19/20

/-- A stream whose 45th draw (the lit polygon's `randint`) is `5/6` and
whose other draws are zero: the shadow polygon of the first layer gets
3 sides while the lit polygon gets 8. -/
def uCE : ℕ → ℚ := fun i => if i = 45 then 5/6 else 0

/-- A numpy stream whose 4th draw differs from its 0th: the first and
last radii of a 5-point blob come out different. -/
def np1 : ℕ → ℚ := fun n => if n = 4 then 1/2 else 0

/-- A constant family of seed-derived streams, used only to fill the
seed-stream arguments of `render_poster` in closed statements that render
with `seed = None`. -/
def spD : ℕ → ℕ → ℚ := fun _ _ => 0

/-- A default parameter bundle: earth palette, polygon shapes, one layer,
white background, black title, `shadow_offset = 0.02`,
`light_angle = 90` degrees. -/
def pD : Params :=
  { style := "earth", shape_type := "polygon", n_layers := 1,
    wobble := 0.4, background := (255, 255, 255),
    title_color := some (0, 0, 0), shadow_offset := 0.02,
    brightness_strength := 0.3, alpha_min := 0.6, alpha_max := 0.9,
    light_angle := 90, rotation_range := 0.3, width := 1200, height := 1700 }

/-- `pD` with two layers, for inspecting the brightness of layer 1. -/
def pC3 : Params := { pD with n_layers := 2 }

/-- `pD` with `shape_type = "circle"`. -/
def pC4 : Params := { pD with shape_type := "circle" }

/-- `pD` with the inverted alpha range `alpha_min = 0.9 > alpha_max = 0.1`. -/
def pC6 : Params := { pD with alpha_min := 0.9, alpha_max := 0.1 }

/-- Default layer value used with `List.getD`. -/
def layer0 : Layer :=
  { rank := 0, litCenter := (0, 0), shadowCenter := (0, 0), radius := 0,
    angle := 0, shadowOutline := [], litOutline := [], base := (0, 0, 0),
    fill := (0, 0, 0), alpha := 0 }

lemma zeroStream_unit : UnitDraws zeroStream :=
  fun _ => ⟨le_refl 0, by norm_num [zeroStream]⟩

lemma uHalf_unit : UnitDraws uHalf :=
  fun _ => ⟨by norm_num [uHalf], by norm_num [uHalf]⟩

lemma u95_unit : UnitDraws u95 :=
  fun _ => ⟨by norm_num [u95], by norm_num [u95]⟩

-- ## Generic palette lemmas

lemma buildColors_mem {f : ℕ → Color} {step : ℕ} :
    ∀ {k i : ℕ} {c : Color}, c ∈ buildColors f step k i → ∃ j, c = f j
  | 0, _, c, h => absurd h (List.not_mem_nil c)
  | k + 1, i, c, h => by
    rw [buildColors] at h
    rcases List.mem_cons.1 h with h | h
    · exact ⟨i, h⟩
    · exact buildColors_mem h

lemma pastelColor_chan (u : ℕ → ℚ) (hu : UnitDraws u) (j : ℕ) :
    ChanIn01 (pastelColor u j) := by
  obtain ⟨h0, h1⟩ := hu j
  obtain ⟨h2, h3⟩ := hu (j + 1)
  obtain ⟨h4, h5⟩ := hu (j + 2)
  unfold pastelColor ChanIn01
  norm_num
  refine ⟨by linarith, by linarith, by linarith, by linarith, by linarith,
    by linarith⟩

lemma neonColor_chan (u : ℕ → ℚ) (hu : UnitDraws u) (j : ℕ) :
    ChanIn01 (neonColor u j) := by
  obtain ⟨h0, h1⟩ := hu j
  obtain ⟨h2, h3⟩ := hu (j + 1)
  obtain ⟨h4, h5⟩ := hu (j + 2)
  unfold neonColor pyUniform ChanIn01
  norm_num
  refine ⟨by linarith, by linarith, by linarith, by linarith, by linarith,
    by linarith⟩

lemma randColor_chan (u : ℕ → ℚ) (hu : UnitDraws u) (j : ℕ) :
    ChanIn01 (randColor u j) := by
  obtain ⟨h0, h1⟩ := hu j
  obtain ⟨h2, h3⟩ := hu (j + 1)
  obtain ⟨h4, h5⟩ := hu (j + 2)
  unfold randColor ChanIn01
  refine ⟨by linarith, by linarith, by linarith, by linarith, by linarith,
    by linarith⟩

lemma pyChoice_chan (l : List Color) (hl : ∀ c ∈ l, ChanIn01 c)
    (hd : ChanIn01 ((0, 0, 0) : Color)) (u : ℕ → ℚ) (i : ℕ) :
    ChanIn01 (pyChoice l u i) := by
  unfold pyChoice
  rcases lt_or_ge ((⌊u i * (l.length : ℚ)⌋).toNat) l.length with h | h
  · rw [List.getD_eq_getElem _ _ h]
    exact hl _ (List.getElem_mem h)
  · rw [List.getD_eq_default _ _ h]
    exact hd

lemma getD_mem_of_lt {α : Type} (l : List α) (d : α) (j : ℕ)
    (h : j < l.length) : l.getD j d ∈ l := by
  rw [List.getD_eq_getElem _ _ h]
  exact List.getElem_mem h

lemma buildColors_length (f : ℕ → Color) (step : ℕ) :
    ∀ k i, (buildColors f step k i).length = k
  | 0, _ => rfl
  | k + 1, i => by
    rw [buildColors, List.length_cons, buildColors_length f step k]

-- ## Claim C1

/-- Claim C1: for every fixed seed `s` and parameter bundle `p`, two calls
of `render_poster` with `seed = s` produce the same poster, whatever the
state of the process-global generators before each call: `random.seed(s)`
and `np.random.seed(s)` overwrite the global state on entry, so the drawn
output is a pure function of `(seed, params)` when the seed is set. -/
theorem render_deterministic (t : Trig) (sp sn : ℕ → ℕ → ℚ)
    (g1 g2 g1n g2n : ℕ → ℚ) (s : ℕ) (p : Params) :
    render_poster t sp sn g1 g1n (some s) p =
      render_poster t sp sn g2 g2n (some s) p := rfl

-- ## Claim C2

/-- Claim C2 (counterexample): the monochrome palette is not clamped.
With every draw equal to `0.95` (a legal unit draw), the single
monochrome entry is `0.95 + 0.1*0.95 = 1.045 > 1`, so not every channel
of every palette colour lies in `[0, 1]`. -/
theorem palette_monochrome_unclamped :
    UnitDraws u95 ∧
    ∃ c ∈ (random_palette u95 "monochrome" 1 0).1, 1 < c.1 :=
  ⟨u95_unit, by with_unfolding_all decide⟩

/-- Claim C2 (amended): for every palette style and count, every channel
of every colour of any style other than monochrome lies in `[0, 1]`;
each monochrome entry is the shared base gray `b = U(0,1)` plus
`0.1*U(0,1)` with no clamp, replicated across the three channels, hence
lies in `[0, 1.1)`. -/
theorem palette_channel_bounds (style : String) (k i : ℕ) (u : ℕ → ℚ)
    (hu : UnitDraws u) :
    ∀ c ∈ (random_palette u style k i).1,
      (style ≠ "monochrome" → ChanIn01 c) ∧
      (style = "monochrome" →
        c.1 = c.2.1 ∧ c.2.1 = c.2.2 ∧ 0 ≤ c.1 ∧ c.1 < 1.1) := by
  intro c hc
  unfold random_palette at hc
  split_ifs at hc with h1 h2 h3 h4 h5 h6 h7
  · obtain ⟨j, rfl⟩ := buildColors_mem hc
    exact ⟨fun _ => pastelColor_chan u hu j, fun h => by rw [h1] at h; simp at h⟩
  · obtain ⟨j, rfl⟩ := buildColors_mem hc
    exact ⟨fun _ => neonColor_chan u hu j, fun h => by rw [h2] at h; simp at h⟩
  · obtain ⟨j, rfl⟩ := buildColors_mem hc
    refine ⟨fun h => absurd h3 h, fun _ => ?_⟩
    obtain ⟨hb0, hb1⟩ := hu i
    obtain ⟨hj0, hj1⟩ := hu j
    unfold monoColor
    norm_num
    refine ⟨by linarith, by linarith⟩
  · obtain ⟨j, rfl⟩ := buildColors_mem hc
    exact ⟨fun _ => pyChoice_chan earth_tones (by with_unfolding_all decide) (by with_unfolding_all decide) u j,
      fun h => absurd h h3⟩
  · obtain ⟨j, rfl⟩ := buildColors_mem hc
    exact ⟨fun _ => pyChoice_chan ocean_tones (by with_unfolding_all decide) (by with_unfolding_all decide) u j,
      fun h => absurd h h3⟩
  · obtain ⟨j, rfl⟩ := buildColors_mem hc
    exact ⟨fun _ => pyChoice_chan sunset_tones (by with_unfolding_all decide) (by with_unfolding_all decide) u j,
      fun h => absurd h h3⟩
  · obtain ⟨j, rfl⟩ := buildColors_mem hc
    exact ⟨fun _ => pyChoice_chan cyber_colors (by with_unfolding_all decide) (by with_unfolding_all decide) u j,
      fun h => absurd h h3⟩
  · obtain ⟨j, rfl⟩ := buildColors_mem hc
    exact ⟨fun _ => randColor_chan u hu j, fun h => absurd h h3⟩

/-- Witness for `palette_channel_bounds`: the first pastel colour drawn
from the constant one-half stream has all channels in `[0, 1]`. -/
theorem palette_channel_bounds_witness :
    UnitDraws uHalf ∧
    ChanIn01 ((random_palette uHalf "pastel" 2 0).1.getD 0 (0, 0, 0)) :=
  ⟨uHalf_unit,
   (palette_channel_bounds "pastel" 2 0 uHalf uHalf_unit _
      (getD_mem_of_lt _ _ 0 (by
        rw [show (random_palette uHalf "pastel" 2 0).1 =
          buildColors (pastelColor uHalf) 3 2 0 from rfl, buildColors_length]
        norm_num))).1 (by decide)⟩

-- ## Structural facts about the layer loop

lemma renderLayers_length (t : Trig) (u nq : ℕ → ℚ) (p : Params)
    (palette : List Color) (dx dy : ℚ) (nL : ℕ) :
    ∀ count i pidx nidx,
      (renderLayers t u nq p palette dx dy nL count i pidx nidx).length = count
  | 0, _, _, _ => rfl
  | count + 1, i, pidx, nidx => by
    rw [renderLayers, List.length_cons,
      renderLayers_length t u nq p palette dx dy nL count]

lemma renderLayers_props (t : Trig) (u nq : ℕ → ℚ) (p : Params)
    (palette : List Color) (dx dy : ℚ) (nL : ℕ) :
    ∀ count i pidx nidx,
      ∀ l ∈ renderLayers t u nq p palette dx dy nL count i pidx nidx,
        l.fill = clipColor (smulColor
          (brightness_factor p.brightness_strength l.rank nL) l.base) ∧
        l.shadowCenter = (l.litCenter.1 + dx, l.litCenter.2 + dy) ∧
        (∃ j, l.alpha = pyUniform u j p.alpha_min p.alpha_max) ∧
        i ≤ l.rank ∧ l.rank < i + count
  | 0, i, pidx, nidx => by
    intro l hl
    simp [renderLayers] at hl
  | count + 1, i, pidx, nidx => by
    intro l hl
    simp only [renderLayers, List.mem_cons] at hl
    rcases hl with rfl | hl
    · refine ⟨rfl, rfl, ⟨_, rfl⟩, le_refl _, ?_⟩
      show i < i + (count + 1)
      omega
    · obtain ⟨h1, h2, h3, h4, h5⟩ :=
        renderLayers_props t u nq p palette dx dy nL count (i + 1) _ _ l hl
      exact ⟨h1, h2, h3, by omega, by omega⟩

lemma render_layers_length (t : Trig) (sp sn : ℕ → ℕ → ℚ) (gp gn : ℕ → ℚ)
    (seed : Option ℕ) (p : Params) :
    (render_poster t sp sn gp gn seed p).layers.length = p.n_layers :=
  renderLayers_length _ _ _ _ _ _ _ _ _ _ _ _

lemma layers_getD_mem (t : Trig) (sp sn : ℕ → ℕ → ℚ) (gp gn : ℕ → ℚ)
    (seed : Option ℕ) (p : Params) (j : ℕ) (h : j < p.n_layers) :
    (render_poster t sp sn gp gn seed p).layers.getD j layer0 ∈
      (render_poster t sp sn gp gn seed p).layers := by
  have h0 : j < (render_poster t sp sn gp gn seed p).layers.length := by
    rw [render_layers_length t sp sn gp gn seed p]
    exact h
  rw [List.getD_eq_getElem _ _ h0]
  exact List.getElem_mem h0

/-- The first layer of the default one-layer render, used by witnesses. -/
def posterD : Poster := render_poster t0 spD spD zeroStream zeroStream none pD

/-- Its only layer. -/
def layerD : Layer := posterD.layers.getD 0 layer0

-- ## Claim C3

/-- Claim C3 (counterexample): at `n_layers = 2`, `brightness_strength =
0.3` and all-zero draws, layer 1's lit fill is `base * (0.75 + 0.3*(1/2))`
(the code divides by `max(1, n_layers)`), not
`clamp(base * (0.75 + 0.3*(1/max(1, n_layers - 1))))` as the claim's
formula `0.75 + strength*(i/max(1, n-1))` demands: the two differ at this
concrete render (`0.9` versus `1.05` as scale factors). -/
theorem brightness_divergence :
    ((render_poster t0 spD spD zeroStream zeroStream none pC3).layers.getD 1
        layer0).fill ≠
      clipColor (smulColor (spec_brightness_factor pC3.brightness_strength
        ((render_poster t0 spD spD zeroStream zeroStream none pC3).layers.getD 1
          layer0).rank pC3.n_layers)
        ((render_poster t0 spD spD zeroStream zeroStream none pC3).layers.getD 1
          layer0).base) := by
  with_unfolding_all decide

/-- Claim C3 (amended): for every layer index `i` of `n` total layers,
the lit fill colour equals the base palette colour scaled by
`0.75 + brightness_strength*(i / max(1, n))` — the code divides by
`n_layers`, not `n_layers - 1` — clamped to `[0, 1]` per channel. -/
theorem layer_brightness_formula (t : Trig) (sp sn : ℕ → ℕ → ℚ)
    (gp gn : ℕ → ℚ) (seed : Option ℕ) (p : Params) :
    ∀ l ∈ (render_poster t sp sn gp gn seed p).layers,
      l.fill = clipColor (smulColor
        (brightness_factor p.brightness_strength l.rank p.n_layers) l.base) :=
  fun l hl =>
    (renderLayers_props _ _ _ _ _ _ _ _ _ _ _ _ l hl).1

/-- Witness for `layer_brightness_formula` at the default one-layer
render. -/
theorem layer_brightness_formula_witness :
    layerD ∈ posterD.layers ∧
    layerD.fill = clipColor (smulColor
      (brightness_factor pD.brightness_strength layerD.rank pD.n_layers)
      layerD.base) :=
  ⟨layers_getD_mem t0 spD spD zeroStream zeroStream none pD 0 Nat.one_pos,
   layer_brightness_formula t0 spD spD zeroStream zeroStream none pD layerD
     (layers_getD_mem t0 spD spD zeroStream zeroStream none pD 0 Nat.one_pos)⟩

-- ## Claim C4

lemma rotate_translate (t : Trig) (q : Point) (cx cy vx vy a : ℚ) :
    rotate_coords t (q.1 + vx, q.2 + vy) (cx + vx, cy + vy) a =
      ((rotate_coords t q (cx, cy) a).1 + vx,
       (rotate_coords t q (cx, cy) a).2 + vy) := by
  unfold rotate_coords
  simp only [Prod.mk.injEq]
  exact ⟨by ring, by ring⟩

lemma circlePts_translate (t : Trig) (cx cy vx vy r : ℚ) (points : ℕ) :
    circlePts t (cx + vx, cy + vy) r points =
      (circlePts t (cx, cy) r points).map fun q => (q.1 + vx, q.2 + vy) := by
  unfold circlePts
  rw [List.map_map]
  apply List.map_congr_left
  intro a _
  simp only [Function.comp_apply, Prod.mk.injEq]
  exact ⟨by ring, by ring⟩

lemma shape_circle (t : Trig) (u nq : ℕ → ℚ) (pidx nidx : ℕ) (c : Point)
    (r : ℚ) (points : ℕ) (w : ℚ) :
    shape t u nq pidx nidx c r points w "circle" =
      (circlePts t c r points, pidx, nidx) := rfl

lemma renderLayers_circle (t : Trig) (u nq : ℕ → ℚ) (p : Params)
    (palette : List Color) (dx dy : ℚ) (nL : ℕ)
    (hc : p.shape_type = "circle") :
    ∀ count i pidx nidx,
      ∀ l ∈ renderLayers t u nq p palette dx dy nL count i pidx nidx,
        l.shadowOutline = l.litOutline.map fun q => (q.1 + dx, q.2 + dy)
  | 0, i, pidx, nidx => by
    intro l hl
    simp [renderLayers] at hl
  | count + 1, i, pidx, nidx => by
    intro l hl
    simp only [renderLayers, List.mem_cons] at hl
    rcases hl with rfl | hl
    · show (shape t u nq (pidx + 4) nidx _ _ 1000 p.wobble p.shape_type).1.map _ =
        List.map _ ((shape t u nq _ _ _ _ 1000 p.wobble p.shape_type).1.map _)
      rw [hc, shape_circle, shape_circle]
      dsimp only
      rw [circlePts_translate, List.map_map, List.map_map]
      apply List.map_congr_left
      intro q _
      simp only [Function.comp_apply]
      exact rotate_translate t q _ _ dx dy _
    · exact renderLayers_circle t u nq p palette dx dy nL hc count (i + 1) _ _ l hl

/-- Claim C4 (counterexample): with polygon shapes and a draw stream whose
shadow-pass `randint(3, 8)` returns 3 but whose lit-pass `randint(3, 8)`
returns 8, the first layer's shadow outline has 4 points while its lit
outline has 9: the shadow pass re-draws the polygon side count, so the
shadow silhouette is not the lit silhouette translated by the shadow
offset. -/
theorem polygon_shadow_mismatch :
    ((render_poster t0 spD spD uCE uCE none pD).layers.getD 0
        layer0).shadowOutline.length ≠
      ((render_poster t0 spD spD uCE uCE none pD).layers.getD 0
        layer0).litOutline.length := by
  with_unfolding_all decide

/-- Claim C4 (amended): the shadow pass draws the same shape kind as the
lit pass, but re-draws the shape's random parameters (polygon side count,
blob radii) independently, so the two silhouettes generally differ; for
circles — the one kind with no per-shape randomness — the shadow outline
is exactly the lit outline translated by the shadow offset
`(shadow_offset*cos(radians(light_angle)), -shadow_offset*sin(radians(light_angle)))`. -/
theorem circle_shadow_translate (t : Trig) (sp sn : ℕ → ℕ → ℚ)
    (gp gn : ℕ → ℚ) (seed : Option ℕ) (p : Params)
    (hc : p.shape_type = "circle") :
    ∀ l ∈ (render_poster t sp sn gp gn seed p).layers,
      l.shadowOutline = l.litOutline.map fun q =>
        (q.1 + p.shadow_offset * t.cosd p.light_angle,
         q.2 - p.shadow_offset * t.sind p.light_angle) := by
  intro l hl
  have h := renderLayers_circle t _ _ p _ _ _ _ hc _ _ _ _ l hl
  rw [h]
  apply List.map_congr_left
  intro q _
  rw [sub_eq_add_neg]

/-- Witness for `circle_shadow_translate` at a one-layer circle render. -/
theorem circle_shadow_translate_witness :
    (render_poster t0 spD spD zeroStream zeroStream none pC4).layers.getD 0
        layer0 ∈
      (render_poster t0 spD spD zeroStream zeroStream none pC4).layers ∧
    ((render_poster t0 spD spD zeroStream zeroStream none pC4).layers.getD 0
        layer0).shadowOutline =
      ((render_poster t0 spD spD zeroStream zeroStream none pC4).layers.getD 0
        layer0).litOutline.map (fun q =>
          (q.1 + pC4.shadow_offset * t0.cosd pC4.light_angle,
           q.2 - pC4.shadow_offset * t0.sind pC4.light_angle)) :=
  ⟨layers_getD_mem t0 spD spD zeroStream zeroStream none pC4 0 Nat.one_pos,
   circle_shadow_translate t0 spD spD zeroStream zeroStream none pC4 rfl _
     (layers_getD_mem t0 spD spD zeroStream zeroStream none pC4 0 Nat.one_pos)⟩

-- ## Claim C5

/-- The shadow shift exactly as the spec words it:
`shadow_offset * (cos(light_angle), sin(light_angle))`.  Kept only to
compare against the code's shift, whose second component is negated. -/
def spec_shadow_shift (t : Trig) (offset angleDeg : ℚ) : Point :=
  (offset * t.cosd angleDeg, offset * t.sind angleDeg)

/-- Claim C5 (counterexample): at `light_angle = 90` degrees (where
`cos = 0` and `sin = 1` exactly, matched by `t0`) and
`shadow_offset = 0.02`, the first layer's shadow centre sits `0.02`
*below* the lit centre, not `0.02` above as the claimed shift
`shadow_offset*(cos(light_angle), sin(light_angle))` demands: the code
negates the `y` component. -/
theorem shadow_center_divergence :
    ((render_poster t0 spD spD zeroStream zeroStream none pD).layers.getD 0
        layer0).shadowCenter ≠
      (((render_poster t0 spD spD zeroStream zeroStream none pD).layers.getD 0
          layer0).litCenter.1 +
        (spec_shadow_shift t0 pD.shadow_offset pD.light_angle).1,
       ((render_poster t0 spD spD zeroStream zeroStream none pD).layers.getD 0
          layer0).litCenter.2 +
        (spec_shadow_shift t0 pD.shadow_offset pD.light_angle).2) := by
  with_unfolding_all decide

/-- Claim C5 (amended): every layer's shadow copy is generated about the
centre `lit centre + shadow_offset*(cos(radians(light_angle)),
-sin(radians(light_angle)))` — the `y` component of the light direction is
negated in the code (`dy = -shadow_offset*sin(...)`). -/
theorem shadow_center_formula (t : Trig) (sp sn : ℕ → ℕ → ℚ)
    (gp gn : ℕ → ℚ) (seed : Option ℕ) (p : Params) :
    ∀ l ∈ (render_poster t sp sn gp gn seed p).layers,
      l.shadowCenter =
        (l.litCenter.1 + p.shadow_offset * t.cosd p.light_angle,
         l.litCenter.2 - p.shadow_offset * t.sind p.light_angle) := by
  intro l hl
  have h := (renderLayers_props _ _ _ _ _ _ _ _ _ _ _ _ l hl).2.1
  rw [h, sub_eq_add_neg]

/-- Witness for `shadow_center_formula` at the default one-layer render. -/
theorem shadow_center_formula_witness :
    layerD ∈ posterD.layers ∧
    layerD.shadowCenter =
      (layerD.litCenter.1 + pD.shadow_offset * t0.cosd pD.light_angle,
       layerD.litCenter.2 - pD.shadow_offset * t0.sind pD.light_angle) :=
  ⟨layers_getD_mem t0 spD spD zeroStream zeroStream none pD 0 Nat.one_pos,
   shadow_center_formula t0 spD spD zeroStream zeroStream none pD layerD
     (layers_getD_mem t0 spD spD zeroStream zeroStream none pD 0 Nat.one_pos)⟩

-- ## Claim C6

lemma pyUniform_rev_bounds (u : ℕ → ℚ) (hu : UnitDraws u) (j : ℕ)
    (a b : ℚ) (hba : b < a) :
    b < pyUniform u j a b ∧ pyUniform u j a b ≤ a := by
  obtain ⟨h0, h1⟩ := hu j
  unfold pyUniform
  constructor <;> nlinarith

/-- Claim C6 (counterexample): with `alpha_min = 0.9 > alpha_max = 0.1`
the renderer does not fail — there is no parameter validation anywhere in
`render_poster` — and it draws its full complement of layers (here 1), so
drawing does begin. -/
theorem invalid_alpha_still_renders :
    pC6.alpha_max < pC6.alpha_min ∧
    (render_poster t0 spD spD zeroStream zeroStream none pC6).layers.length
      = 1 :=
  ⟨by with_unfolding_all decide,
   render_layers_length t0 spD spD zeroStream zeroStream none pC6⟩

/-- Claim C6 (amended): `render_poster` performs no parameter validation:
with `alpha_min > alpha_max` it silently renders all `n_layers` layers,
each alpha being `alpha_min + (alpha_max - alpha_min)*U(0,1)`, which lies
in `(alpha_max, alpha_min]`.  No `InvalidParameter` failure exists in the
code. -/
theorem no_validation_draws_all_layers (t : Trig) (sp sn : ℕ → ℕ → ℚ)
    (gp gn : ℕ → ℚ) (p : Params) (hu : UnitDraws gp)
    (hab : p.alpha_max < p.alpha_min) :
    (render_poster t sp sn gp gn none p).layers.length = p.n_layers ∧
    ∀ l ∈ (render_poster t sp sn gp gn none p).layers,
      p.alpha_max < l.alpha ∧ l.alpha ≤ p.alpha_min := by
  refine ⟨render_layers_length t sp sn gp gn none p, ?_⟩
  intro l hl
  obtain ⟨j, hj⟩ := (renderLayers_props _ _ _ _ _ _ _ _ _ _ _ _ l hl).2.2.1
  rw [hj]
  exact pyUniform_rev_bounds gp hu j _ _ hab

/-- Witness for `no_validation_draws_all_layers` with the inverted alpha
range and the constant one-half stream. -/
theorem no_validation_witness :
    UnitDraws uHalf ∧ pC6.alpha_max < pC6.alpha_min ∧
    (render_poster t0 spD spD uHalf uHalf none pC6).layers.length
        = pC6.n_layers ∧
    (pC6.alpha_max <
        ((render_poster t0 spD spD uHalf uHalf none pC6).layers.getD 0
          layer0).alpha ∧
      ((render_poster t0 spD spD uHalf uHalf none pC6).layers.getD 0
          layer0).alpha ≤ pC6.alpha_min) :=
  ⟨uHalf_unit, by with_unfolding_all decide,
   (no_validation_draws_all_layers t0 spD spD uHalf uHalf pC6 uHalf_unit
     (by with_unfolding_all decide)).1,
   (no_validation_draws_all_layers t0 spD spD uHalf uHalf pC6 uHalf_unit
     (by with_unfolding_all decide)).2 _
     (layers_getD_mem t0 spD spD uHalf uHalf none pC6 0 Nat.one_pos)⟩

-- ## Claim C7

/-- Claim C7 (counterexample): the blob radii are not floored.  With
`wobble = 3` (which satisfies the claim's `wobble ≥ 0`), base radius
`r = 1/5 > 0` and the legal draw `0`, the first per-point radius is
`r*(1 + 3*(0 - 0.5)) = -1/10 ≤ 0`: no clamping to a positive floor
exists in the code. -/
theorem blob_radius_nonpositive :
    UnitDraws zeroStream ∧ (0 : ℚ) ≤ 3 ∧ (0 : ℚ) < 1/5 ∧
    (blobRadii zeroStream 0 (1/5) 3 1).getD 0 0 ∈
      blobRadii zeroStream 0 (1/5) 3 1 ∧
    (blobRadii zeroStream 0 (1/5) 3 1).getD 0 0 ≤ 0 :=
  ⟨zeroStream_unit, by norm_num, by norm_num,
   getD_mem_of_lt _ _ 0 (by simp [blobRadii]),
   by with_unfolding_all decide⟩

/-- Claim C7 (amended): for `0 ≤ wobble < 2` and base radius `r > 0`,
every per-point blob radius is strictly positive.  There is no clamping
floor in the code, and for `wobble ≥ 2` a radius can reach `≤ 0`. -/
theorem blob_radius_positive_small_wobble (nq : ℕ → ℚ) (i0 : ℕ)
    (r w : ℚ) (points : ℕ) (hn : UnitDraws nq) (hw0 : 0 ≤ w) (hw2 : w < 2)
    (hr : 0 < r) :
    ∀ ρ ∈ blobRadii nq i0 r w points, 0 < ρ := by
  intro x hx
  rw [blobRadii] at hx
  obtain ⟨k, -, rfl⟩ := List.mem_map.1 hx
  obtain ⟨h0, h1⟩ := hn (i0 + k)
  unfold blobRadius
  have hwq : 0 ≤ w * nq (i0 + k) := mul_nonneg hw0 h0
  have hxp : 0 < 1 + w * (nq (i0 + k) - 0.5) := by nlinarith
  exact mul_pos hr hxp

/-- Witness for `blob_radius_positive_small_wobble` at `wobble = 1`,
`r = 1/5`, two points, with the constant one-half stream. -/
theorem blob_radius_positive_witness :
    UnitDraws uHalf ∧ (0 : ℚ) ≤ 1 ∧ (1 : ℚ) < 2 ∧ (0 : ℚ) < 1/5 ∧
    0 < (blobRadii uHalf 0 (1/5) 1 2).getD 0 0 :=
  ⟨uHalf_unit, by norm_num, by norm_num, by norm_num,
   blob_radius_positive_small_wobble uHalf 0 (1/5) 1 2 uHalf_unit
     (by norm_num) (by norm_num) (by norm_num) _
     (getD_mem_of_lt _ _ 0 (by simp [blobRadii]))⟩

-- ## Claim C8

lemma closed_append_take (l : List Point) (p : Point) :
    ((p :: l) ++ (p :: l).take 1).head? = ((p :: l) ++ (p :: l).take 1).getLast? := by
  show ((p :: l) ++ [p]).head? = ((p :: l) ++ [p]).getLast?
  rw [List.getLast?_concat, List.cons_append, List.head?_cons]

/-- Claim C8: every polygon outline is explicitly closed — its first point
equals its last point — and the randomly chosen side count
`randint(3, 8)` indeed lies in `[3, 8]`. -/
theorem polygon_outline_closed (t : Trig) (u : ℕ → ℚ) (i : ℕ) (c : Point)
    (r : ℚ) (hu : UnitDraws u) :
    (polygonOutline t u i c r).head? = (polygonOutline t u i c r).getLast? ∧
    3 ≤ pyRandint u i 3 8 ∧ pyRandint u i 3 8 ≤ 8 := by
  obtain ⟨h0, h1⟩ := hu i
  have hb : 3 ≤ pyRandint u i 3 8 ∧ pyRandint u i 3 8 ≤ 8 := by
    unfold pyRandint
    have hf0 : 0 ≤ ⌊u i * (((8 : ℤ) : ℚ) - ((3 : ℤ) : ℚ) + 1)⌋ :=
      Int.floor_nonneg.2 (by push_cast; nlinarith)
    have hf5 : ⌊u i * (((8 : ℤ) : ℚ) - ((3 : ℤ) : ℚ) + 1)⌋ < 6 :=
      Int.floor_lt.2 (by push_cast; nlinarith)
    omega
  refine ⟨?_, hb.1, hb.2⟩
  unfold polygonOutline
  obtain ⟨m, hm⟩ : ∃ m, (pyRandint u i 3 8).toNat = m + 1 :=
    ⟨(pyRandint u i 3 8).toNat - 1, by omega⟩
  rw [hm]
  dsimp only
  rw [List.range_succ_eq_map, List.map_cons]
  exact closed_append_take _ _

/-- Witness for `polygon_outline_closed` with the constant one-half
stream (which picks 6 sides). -/
theorem polygon_outline_closed_witness :
    UnitDraws uHalf ∧
    (polygonOutline t0 uHalf 0 (1/2, 1/2) (1/5)).head? =
      (polygonOutline t0 uHalf 0 (1/2, 1/2) (1/5)).getLast? ∧
    3 ≤ pyRandint uHalf 0 3 8 ∧ pyRandint uHalf 0 3 8 ≤ 8 :=
  ⟨uHalf_unit,
   (polygon_outline_closed t0 uHalf 0 (1/2, 1/2) (1/5) uHalf_unit).1,
   (polygon_outline_closed t0 uHalf 0 (1/2, 1/2) (1/5) uHalf_unit).2.1,
   (polygon_outline_closed t0 uHalf 0 (1/2, 1/2) (1/5) uHalf_unit).2.2⟩

-- ## Claim C9

lemma luminance_bounds (c : Color) (h : ChanIn01 c) :
    0 ≤ luminance c ∧ luminance c ≤ 1 := by
  obtain ⟨h1, h2, h3, h4, h5, h6⟩ := h
  unfold luminance
  constructor <;> nlinarith

lemma hexToRGB_chan (b : ℕ × ℕ × ℕ) (h1 : b.1 ≤ 255) (h2 : b.2.1 ≤ 255)
    (h3 : b.2.2 ≤ 255) : ChanIn01 (hexToRGB b) := by
  unfold hexToRGB ChanIn01
  refine ⟨by positivity, ?_, by positivity, ?_, by positivity, ?_⟩
  all_goals rw [div_le_one (by norm_num)]
  · exact_mod_cast h1
  · exact_mod_cast h2
  · exact_mod_cast h3

lemma fixTitle_contrast (bg txt : Color) (h0 : 0 ≤ luminance bg)
    (h1 : luminance bg ≤ 1) :
    3/10 ≤ |luminance bg - luminance (fixTitleColor bg txt)| := by
  unfold fixTitleColor
  split_ifs with hd hl
  · have hw : luminance ((1, 1, 1) : Color) = 1 := by norm_num [luminance]
    rw [hw, abs_sub_comm, abs_of_nonneg (by linarith)]
    linarith
  · have hk : luminance ((0, 0, 0) : Color) = 0 := by norm_num [luminance]
    push_neg at hl
    rw [hk, sub_zero, abs_of_nonneg h0]
    linarith
  · push_neg at hd
    linarith

/-- Claim C9: after the text-contrast fix, for every validly parsed hex
background (bytes at most 255) and any requested title colour, the
luminance of the title colour actually used differs from the background
luminance by at least `0.3`; and whenever the adjustment fires (luminance
gap below `0.5`), the chosen colour is white if the background luminance
is below `0.5` and black otherwise. -/
theorem title_contrast_holds (t : Trig) (sp sn : ℕ → ℕ → ℚ)
    (gp gn : ℕ → ℚ) (seed : Option ℕ) (p : Params)
    (h1 : p.background.1 ≤ 255) (h2 : p.background.2.1 ≤ 255)
    (h3 : p.background.2.2 ≤ 255) :
    3/10 ≤ |luminance (render_poster t sp sn gp gn seed p).bgRGB -
      luminance (render_poster t sp sn gp gn seed p).titleRGB| ∧
    (|luminance (hexToRGB p.background) -
        luminance (requestedTitleRGB p)| < 0.5 →
      (render_poster t sp sn gp gn seed p).titleRGB =
        (if luminance (hexToRGB p.background) < 0.5
          then ((1 : ℚ), (1 : ℚ), (1 : ℚ)) else (0, 0, 0))) := by
  have hb := hexToRGB_chan p.background h1 h2 h3
  have hlum := luminance_bounds _ hb
  constructor
  · show 3/10 ≤ |luminance (hexToRGB p.background) -
      luminance (fixTitleColor (hexToRGB p.background) (requestedTitleRGB p))|
    exact fixTitle_contrast _ _ hlum.1 hlum.2
  · intro hsm
    show fixTitleColor (hexToRGB p.background) (requestedTitleRGB p) = _
    unfold fixTitleColor
    rw [if_pos hsm]

/-- The default bundle with a black background: the requested black title
has no contrast, so the fix fires. -/
def pC9 : Params := { pD with background := (0, 0, 0) }

/-- Witness for `title_contrast_holds`: black background, black requested
title; the colour actually used contrasts by at least `0.3`. -/
theorem title_contrast_witness :
    pC9.background.1 ≤ 255 ∧ pC9.background.2.1 ≤ 255 ∧
    pC9.background.2.2 ≤ 255 ∧
    3/10 ≤ |luminance (render_poster t0 spD spD zeroStream zeroStream none
        pC9).bgRGB -
      luminance (render_poster t0 spD spD zeroStream zeroStream none
        pC9).titleRGB| :=
  ⟨by decide, by decide, by decide,
   (title_contrast_holds t0 spD spD zeroStream zeroStream none pC9
     (by decide) (by decide) (by decide)).1⟩

-- ## Claim C10

lemma np1_unit : UnitDraws np1 := by
  intro n
  unfold np1
  split <;> norm_num

/-- Claim C10: a blob outline is not explicitly closed: it has exactly
`points` points with no repeated first vertex (unlike polygons); its
first and last points sit at the turn fractions `0` and `1` — the angles
`0` and `2*pi` — with independently drawn radii; and for the wobble
`1 > 0` and a legal draw stream whose 0th and 4th draws differ, the first
and last points of a 5-point blob differ. -/
theorem blob_outline_open (t : Trig) (nq : ℕ → ℚ) (i0 : ℕ) (c : Point)
    (r w : ℚ) (points : ℕ) (h2 : 2 ≤ points) :
    (blob t nq i0 c r points w).length = points ∧
    (linspaceFrac points).head? = some 0 ∧
    (linspaceFrac points).getLast? = some 1 ∧
    (0 : ℚ) < 1 ∧ UnitDraws np1 ∧
    (blob t0 np1 0 (1/2, 1/2) (1/5) 5 1).head? ≠
      (blob t0 np1 0 (1/2, 1/2) (1/5) 5 1).getLast? := by
  obtain ⟨m, rfl⟩ : ∃ m, points = m + 2 := ⟨points - 2, by omega⟩
  refine ⟨?_, ?_, ?_, by norm_num, np1_unit, by with_unfolding_all decide⟩
  · simp [blob, linspaceFrac, blobRadii, Nat.min_self]
  · rw [linspaceFrac, List.range_succ_eq_map, List.map_cons, List.head?_cons]
    norm_num
  · rw [linspaceFrac, List.range_succ, List.map_append, List.map_singleton,
      List.getLast?_concat]
    have he : ((m : ℚ) + 2) - 1 = (m : ℚ) + 1 := by ring
    congr 1
    push_cast
    rw [he, div_self (by positivity)]

/-- Witness for `blob_outline_open` at five points. -/
theorem blob_outline_open_witness :
    2 ≤ 5 ∧
    (blob t0 np1 0 (1/2, 1/2) (1/5) 5 1).length = 5 ∧
    (linspaceFrac 5).head? = some 0 ∧ (linspaceFrac 5).getLast? = some 1 ∧
    (blob t0 np1 0 (1/2, 1/2) (1/5) 5 1).head? ≠
      (blob t0 np1 0 (1/2, 1/2) (1/5) 5 1).getLast? :=
  ⟨by norm_num,
   (blob_outline_open t0 np1 0 (1/2, 1/2) (1/5) 1 5 (by norm_num)).1,
   (blob_outline_open t0 np1 0 (1/2, 1/2) (1/5) 1 5 (by norm_num)).2.1,
   (blob_outline_open t0 np1 0 (1/2, 1/2) (1/5) 1 5 (by norm_num)).2.2.1,
   (blob_outline_open t0 np1 0 (1/2, 1/2) (1/5) 1 5
     (by norm_num)).2.2.2.2.2⟩
